import Mathlib

/-!
# Verification of the zalo_bot configuration / lifecycle core

Shallow embedding of the configuration store (`services/app_settings.py`),
the agent session (`services/advisor/agent.py`), the messaging session
(`services/zalo/bot.py`) and the webhook boundary (`main.py`), with proofs
of the specified properties.
-/

mutual
/-- A Python/JSON value as handled by `json.loads` / `model_dump`:
strings, numbers (modelled as rationals), booleans, `None`, lists and
dicts (association lists in insertion order, keys unique). -/
inductive PyVal : Type where
  | str (s : String)
  | num (q : Rat)
  | bool (b : Bool)
  | pynone
  | list (xs : PyArr)
  | dict (xs : PyObj)
deriving DecidableEq

/-- A Python list of values. -/
inductive PyArr : Type where
  | nil
  | cons (hd : PyVal) (tl : PyArr)
deriving DecidableEq

/-- A Python dict with string keys, in insertion order. -/
inductive PyObj : Type where
  | nil
  | cons (k : String) (v : PyVal) (tl : PyObj)
deriving DecidableEq
end

/-- First-occurrence lookup in a dict, Python `a[key]` (and `key in a`). -/
def lookupD : PyObj → String → Option PyVal
  | .nil, _ => none
  | .cons k' v' rest, k => if k' = k then some v' else lookupD rest k

/-- Python dict assignment `a[key] = value`: replaces the first binding of
`key` if present, otherwise appends a new binding. -/
def setKey : PyObj → String → PyVal → PyObj
  | .nil, k, v => .cons k v .nil
  | .cons k' v' rest, k, v =>
    if k' = k then .cons k v rest else .cons k' v' (setKey rest k v)

/-- The keys of a dict, in order. -/
def keysD : PyObj → List String
  | .nil => []
  | .cons k _ rest => k :: keysD rest

mutual
/-- The recursive `merge` of `ConfigManager.update` (app_settings.py:107-113):
for each key/value pair of the patch `b` in order, if the patch value is a
dict and the current value at that key is also a dict, recurse; otherwise
the patch value replaces the current value. -/
def merge : PyObj → PyObj → PyObj
  | a, .nil => a
  | a, .cons k v rest => merge (mergeKey a k (lookupD a k) v) rest

/-- One iteration of the `merge` loop body for key `k`: the second argument
is the current value `a[k]` (if any), the third the patch value. -/
def mergeKey (a : PyObj) (k : String) : Option PyVal → PyVal → PyObj
  | some (.dict av), .dict bv => setKey a k (.dict (merge av bv))
  | _, v => setKey a k v
end

/-- Build a dict from a Lean list of bindings (notation helper for literals). -/
def PyObj.ofList : List (String × PyVal) → PyObj
  | [] => .nil
  | (k, v) :: rest => .cons k v (PyObj.ofList rest)

/-- Build a Python list from a Lean list of values. -/
def PyArr.ofList : List PyVal → PyArr
  | [] => .nil
  | v :: rest => .cons v (PyArr.ofList rest)

/- ----------------------------------------------------------------------
Settings data model (`services/app_settings.py:12-65`): the pydantic
models `ToolConfig`, `ModelConfig`, `AgentConfig`, `ZaloOAConfig`,
`ZaloPersonalConfig`, `ZaloConfig`, `AppSettings` with their declared
defaults.
---------------------------------------------------------------------- -/

/-- `ModelConfig` (app_settings.py:26-31). -/
structure ModelConfig where
  provider : String
  name : String
  api_key : String
  temperature : Rat
  max_tokens : Int
deriving DecidableEq

/-- Field defaults of `ModelConfig`. -/
def ModelConfig.defaults : ModelConfig :=
  { provider := "groq", name := "llama3-8b-8192", api_key := "",
    temperature := (7 : Rat) / 10, max_tokens := 2048 }

/-- `ToolConfig` (app_settings.py:12-24): tool descriptor persisted in the
settings tree. `name`, `type`, `description`, `input`, `output` are
required; the rest are optional or defaulted. -/
structure ToolConfig where
  name : String
  type : String
  enabled : Bool
  description : String
  curl : Option String
  input : PyObj
  header : Option (List (String × String))
  output : PyObj
  dependencies : Option (List String)
  category : Option String
  max_concurrent : Option Int
  headers : Option (List (String × String))
deriving DecidableEq

/-- `AgentConfig` (app_settings.py:33-37). -/
structure AgentConfig where
  enabled : Bool
  system_prompt : String
  tools : List ToolConfig
  model : ModelConfig
deriving DecidableEq

/-- Field defaults of `AgentConfig`. -/
def AgentConfig.defaults : AgentConfig :=
  { enabled := true, system_prompt := "You are a helpful Zalo assistant.",
    tools := [], model := ModelConfig.defaults }

/-- `ZaloOAConfig` (app_settings.py:40-42). -/
structure ZaloOAConfig where
  enabled : Bool
  secret_key : String
deriving DecidableEq

def ZaloOAConfig.defaults : ZaloOAConfig := { enabled := true, secret_key := "" }

/-- `ZaloPersonalConfig` (app_settings.py:44-49). -/
structure ZaloPersonalConfig where
  enabled : Bool
  phone : String
  password : String
  imei : String
  cookies : Option (List (String × String))
deriving DecidableEq

def ZaloPersonalConfig.defaults : ZaloPersonalConfig :=
  { enabled := false, phone := "", password := "", imei := "", cookies := none }

/-- `ZaloConfig` (app_settings.py:51-53). -/
structure ZaloConfig where
  oa : ZaloOAConfig
  personal : ZaloPersonalConfig
deriving DecidableEq

def ZaloConfig.defaults : ZaloConfig :=
  { oa := ZaloOAConfig.defaults, personal := ZaloPersonalConfig.defaults }

/-- `AppSettings` (app_settings.py:58-65), the root settings model. -/
structure AppSettings where
  agent_config : AgentConfig
  zalo_config : ZaloConfig
deriving DecidableEq

/-- The built-in default settings, `AppSettings()`. -/
def AppSettings.defaults : AppSettings :=
  { agent_config := AgentConfig.defaults, zalo_config := ZaloConfig.defaults }

/- ----------------------------------------------------------------------
Validation, modelling pydantic `AppSettings.model_validate`: a field that
is present must have the declared type, a missing defaulted field takes
its default, a missing required field is an error, unknown keys are
ignored.  (`model_validate` raising is modelled as `Except.error`.)
---------------------------------------------------------------------- -/

def validateStr : PyVal → Except String String
  | .str s => .ok s
  | _ => .error "expected str"

def validateBool : PyVal → Except String Bool
  | .bool b => .ok b
  | _ => .error "expected bool"

def validateRat : PyVal → Except String Rat
  | .num q => .ok q
  | _ => .error "expected number"

def validateInt : PyVal → Except String Int
  | .num q => if q.den = 1 then .ok q.num else .error "expected int"
  | _ => .error "expected int"

/-- Validate a `Dict[str, str]` field. -/
def validateStrMap : PyVal → Except String (List (String × String))
  | .dict d => go d
  | _ => .error "expected dict of str"
where
  go : PyObj → Except String (List (String × String))
    | .nil => .ok []
    | .cons k (.str s) rest => (go rest).map (fun r => (k, s) :: r)
    | .cons _ _ _ => .error "expected str value"

/-- Validate a `List[str]` field. -/
def validateStrList : PyVal → Except String (List String)
  | .list xs => go xs
  | _ => .error "expected list of str"
where
  go : PyArr → Except String (List String)
    | .nil => .ok []
    | .cons (.str s) rest => (go rest).map (fun r => s :: r)
    | .cons _ _ => .error "expected str element"

/-- Validate a `Dict[str, Any]` field. -/
def validateAnyDict : PyVal → Except String PyObj
  | .dict d => .ok d
  | _ => .error "expected dict"

/-- A required field: missing is a validation error. -/
def reqField (d : PyObj) (k : String) (f : PyVal → Except String α) : Except String α :=
  match lookupD d k with
  | some v => f v
  | none => .error ("missing required field " ++ k)

/-- A defaulted field: missing takes the declared default. -/
def optField (d : PyObj) (k : String) (dflt : α) (f : PyVal → Except String α) :
    Except String α :=
  match lookupD d k with
  | some v => f v
  | none => .ok dflt

/-- An `Optional[...] = None` field: missing or `None` yields `none`. -/
def optNullable (d : PyObj) (k : String) (f : PyVal → Except String α) :
    Except String (Option α) :=
  match lookupD d k with
  | some .pynone => .ok none
  | some v => (f v).map some
  | none => .ok none

def validateModelConfig : PyVal → Except String ModelConfig
  | .dict d => do
    let provider ← optField d "provider" ModelConfig.defaults.provider validateStr
    let name ← optField d "name" ModelConfig.defaults.name validateStr
    let api_key ← optField d "api_key" ModelConfig.defaults.api_key validateStr
    let temperature ← optField d "temperature" ModelConfig.defaults.temperature validateRat
    let max_tokens ← optField d "max_tokens" ModelConfig.defaults.max_tokens validateInt
    .ok { provider, name, api_key, temperature, max_tokens }
  | _ => .error "ModelConfig: expected dict"

def validateToolConfig : PyVal → Except String ToolConfig
  | .dict d => do
    let name ← reqField d "name" validateStr
    let ty ← reqField d "type" validateStr
    let enabled ← optField d "enabled" true validateBool
    let description ← reqField d "description" validateStr
    let curl ← optNullable d "curl" validateStr
    let input ← reqField d "input" validateAnyDict
    let header ← optNullable d "header" validateStrMap
    let output ← reqField d "output" validateAnyDict
    let dependencies ← optNullable d "dependencies" validateStrList
    let category ← optNullable d "category" validateStr
    let max_concurrent ← optNullable d "max_concurrent" validateInt
    let headers ← optNullable d "headers" validateStrMap
    .ok { name, type := ty, enabled, description, curl, input, header, output,
          dependencies, category, max_concurrent, headers }
  | _ => .error "ToolConfig: expected dict"

def validateToolList : PyVal → Except String (List ToolConfig)
  | .list xs => go xs
  | _ => .error "tools: expected list"
where
  go : PyArr → Except String (List ToolConfig)
    | .nil => .ok []
    | .cons v rest => do
      let t ← validateToolConfig v
      let r ← go rest
      .ok (t :: r)

def validateAgentConfig : PyVal → Except String AgentConfig
  | .dict d => do
    let enabled ← optField d "enabled" AgentConfig.defaults.enabled validateBool
    let system_prompt ←
      optField d "system_prompt" AgentConfig.defaults.system_prompt validateStr
    let tools ← optField d "tools" AgentConfig.defaults.tools validateToolList
    let model ← optField d "model" AgentConfig.defaults.model validateModelConfig
    .ok { enabled, system_prompt, tools, model }
  | _ => .error "AgentConfig: expected dict"

def validateZaloOAConfig : PyVal → Except String ZaloOAConfig
  | .dict d => do
    let enabled ← optField d "enabled" ZaloOAConfig.defaults.enabled validateBool
    let secret_key ← optField d "secret_key" ZaloOAConfig.defaults.secret_key validateStr
    .ok { enabled, secret_key }
  | _ => .error "ZaloOAConfig: expected dict"

def validateZaloPersonalConfig : PyVal → Except String ZaloPersonalConfig
  | .dict d => do
    let enabled ← optField d "enabled" ZaloPersonalConfig.defaults.enabled validateBool
    let phone ← optField d "phone" ZaloPersonalConfig.defaults.phone validateStr
    let password ← optField d "password" ZaloPersonalConfig.defaults.password validateStr
    let imei ← optField d "imei" ZaloPersonalConfig.defaults.imei validateStr
    let cookies ← optNullable d "cookies" validateStrMap
    .ok { enabled, phone, password, imei, cookies }
  | _ => .error "ZaloPersonalConfig: expected dict"

def validateZaloConfig : PyVal → Except String ZaloConfig
  | .dict d => do
    let oa ← optField d "oa" ZaloConfig.defaults.oa validateZaloOAConfig
    let personal ←
      optField d "personal" ZaloConfig.defaults.personal validateZaloPersonalConfig
    .ok { oa, personal }
  | _ => .error "ZaloConfig: expected dict"

/-- `AppSettings.model_validate` on a parsed JSON value: the whole tree is
validated against the schema; any violation raises (here: `.error`). -/
def validateAppSettings : PyVal → Except String AppSettings
  | .dict d => do
    let agent_config ←
      optField d "agent_config" AppSettings.defaults.agent_config validateAgentConfig
    let zalo_config ←
      optField d "zalo_config" AppSettings.defaults.zalo_config validateZaloConfig
    .ok { agent_config, zalo_config }
  | _ => .error "AppSettings: expected dict"

/- ----------------------------------------------------------------------
`model_dump`: serialization of the settings models back to Python dicts,
field for field in declaration order (pydantic `model_dump` /
`model_dump_json`).
---------------------------------------------------------------------- -/

def dumpStrMap (m : List (String × String)) : PyVal :=
  .dict (PyObj.ofList (m.map (fun p => (p.1, PyVal.str p.2))))

def dumpOptStr : Option String → PyVal
  | some s => .str s
  | none => .pynone

def dumpOptStrMap : Option (List (String × String)) → PyVal
  | some m => dumpStrMap m
  | none => .pynone

def dumpOptStrList : Option (List String) → PyVal
  | some xs => .list (PyArr.ofList (xs.map PyVal.str))
  | none => .pynone

def dumpOptInt : Option Int → PyVal
  | some i => .num (i : Rat)
  | none => .pynone

def ModelConfig.dump (m : ModelConfig) : PyVal :=
  .dict (PyObj.ofList
    [("provider", .str m.provider), ("name", .str m.name),
     ("api_key", .str m.api_key), ("temperature", .num m.temperature),
     ("max_tokens", .num (m.max_tokens : Rat))])

def ToolConfig.dump (t : ToolConfig) : PyVal :=
  .dict (PyObj.ofList
    [("name", .str t.name), ("type", .str t.type),
     ("enabled", .bool t.enabled), ("description", .str t.description),
     ("curl", dumpOptStr t.curl), ("input", .dict t.input),
     ("header", dumpOptStrMap t.header), ("output", .dict t.output),
     ("dependencies", dumpOptStrList t.dependencies),
     ("category", dumpOptStr t.category),
     ("max_concurrent", dumpOptInt t.max_concurrent),
     ("headers", dumpOptStrMap t.headers)])

def AgentConfig.dump (a : AgentConfig) : PyVal :=
  .dict (PyObj.ofList
    [("enabled", .bool a.enabled), ("system_prompt", .str a.system_prompt),
     ("tools", .list (PyArr.ofList (a.tools.map ToolConfig.dump))),
     ("model", a.model.dump)])

def ZaloOAConfig.dump (z : ZaloOAConfig) : PyVal :=
  .dict (PyObj.ofList [("enabled", .bool z.enabled), ("secret_key", .str z.secret_key)])

def ZaloPersonalConfig.dump (z : ZaloPersonalConfig) : PyVal :=
  .dict (PyObj.ofList
    [("enabled", .bool z.enabled), ("phone", .str z.phone),
     ("password", .str z.password), ("imei", .str z.imei),
     ("cookies", dumpOptStrMap z.cookies)])

def ZaloConfig.dump (z : ZaloConfig) : PyVal :=
  .dict (PyObj.ofList [("oa", z.oa.dump), ("personal", z.personal.dump)])

/-- `self.settings.model_dump()` as a dict (app_settings.py:104). -/
def AppSettings.dumpObj (s : AppSettings) : PyObj :=
  PyObj.ofList [("agent_config", s.agent_config.dump), ("zalo_config", s.zalo_config.dump)]

/- ----------------------------------------------------------------------
`ConfigManager` (app_settings.py:70-125).  Its observable state is the
in-memory `self.settings` and the persisted JSON document (the file is
written whole via temp-file-then-rename, so it is modelled as the dumped
document or `none` when absent).
---------------------------------------------------------------------- -/

/-- Observable state of a `ConfigManager`. -/
structure CMState where
  settings : AppSettings
  disk : Option PyObj
deriving DecidableEq

/-- `ConfigManager.save` (app_settings.py:91-100): writes the dump of the
current in-memory settings to the file (temp file + atomic rename). -/
def ConfigManager.save (st : CMState) : CMState :=
  { st with disk := some st.settings.dumpObj }

/-- `ConfigManager.update` (app_settings.py:102-123): dump the current
settings, merge the patch into the dump, re-validate the whole merged
tree, and only on success assign the new settings and persist them.  A
validation failure propagates out of `update` (first component `.error`)
with the state untouched. -/
def ConfigManager.update (st : CMState) (data : PyObj) :
    Except String AppSettings × CMState :=
  let merged := merge st.settings.dumpObj data
  match validateAppSettings (.dict merged) with
  | .error e => (.error e, st)
  | .ok s' => (.ok s', ConfigManager.save { st with settings := s' })

/-- The on-disk input that `ConfigManager.load` (app_settings.py:77-89)
reads: `none` models a missing file (or empty content), `some (.error e)`
a file whose content makes `json.loads` raise, `some (.ok v)` a file whose
content parses to the JSON value `v`. -/
abbrev DiskRead := Option (Except String PyVal)

/-- `ConfigManager.load`: the read/parse step is wrapped in `try/except`
(missing file or parse error leaves `config_from_file = {}`), but the
final `AppSettings.model_validate(config_from_file)` call is outside the
`try`, so a schema-validation failure propagates out of `load`. -/
def ConfigManager.load (file : DiskRead) : Except String AppSettings :=
  let config_from_file : PyVal :=
    match file with
    | none => .dict .nil
    | some (.error _) => .dict .nil
    | some (.ok v) => v
  validateAppSettings config_from_file

/- ----------------------------------------------------------------------
Lemmas about `merge`, `setKey`, `lookupD`.
---------------------------------------------------------------------- -/

/-- The value-level effect of one `merge` iteration: a nested dict merges
recursively into a current dict, any other combination replaces. -/
def mergeVal : Option PyVal → PyVal → PyVal
  | some (.dict av), .dict bv => .dict (merge av bv)
  | _, v => v

theorem mergeKey_eq_setKey (a : PyObj) (k : String) (cur : Option PyVal) (v : PyVal) :
    mergeKey a k cur v = setKey a k (mergeVal cur v) := by
  cases cur with
  | none => cases v <;> rfl
  | some c => cases c <;> cases v <;> rfl

theorem lookupD_setKey_self : (a : PyObj) → (k : String) → (v : PyVal) →
    lookupD (setKey a k v) k = some v
  | .nil, k, v => by simp [setKey, lookupD]
  | .cons k' v' rest, k, v => by
    by_cases h : k' = k
    · simp [setKey, h, lookupD]
    · simp [setKey, h, lookupD, lookupD_setKey_self rest k v]

theorem lookupD_setKey_ne : (a : PyObj) → (k' k : String) → (v : PyVal) → k' ≠ k →
    lookupD (setKey a k' v) k = lookupD a k
  | .nil, k', k, v, h => by simp [setKey, lookupD, h]
  | .cons k'' v'' rest, k', k, v, h => by
    by_cases h2 : k'' = k'
    · simp [setKey, h2, lookupD, h]
    · by_cases h3 : k'' = k
      · simp [setKey, h2, lookupD, h3, if_neg (Ne.symm h)]
      · simp [setKey, h2, lookupD, h3, lookupD_setKey_ne rest k' k v h]

theorem lookupD_merge_not_mem : (a b : PyObj) → (k : String) → k ∉ keysD b →
    lookupD (merge a b) k = lookupD a k
  | _, .nil, _, _ => rfl
  | a, .cons k' v rest, k, h => by
    have hne : k' ≠ k := by
      intro e; exact h (by simp [keysD, e])
    have hrest : k ∉ keysD rest := by
      intro m; exact h (by simp [keysD]; exact Or.inr m)
    calc lookupD (merge a (.cons k' v rest)) k
        = lookupD (merge (mergeKey a k' (lookupD a k') v) rest) k := rfl
      _ = lookupD (mergeKey a k' (lookupD a k') v) k :=
          lookupD_merge_not_mem _ rest k hrest
      _ = lookupD (setKey a k' (mergeVal (lookupD a k') v)) k := by
          rw [mergeKey_eq_setKey]
      _ = lookupD a k := lookupD_setKey_ne a k' k _ hne

theorem lookupD_merge_mem : (a b : PyObj) → (k : String) → (v : PyVal) →
    (keysD b).Nodup → lookupD b k = some v →
    lookupD (merge a b) k = some (mergeVal (lookupD a k) v)
  | _, .nil, _, _, _, hlk => by simp [lookupD] at hlk
  | a, .cons k' v' rest, k, v, hnd, hlk => by
    have hnd' : k' ∉ keysD rest ∧ (keysD rest).Nodup := by
      simpa [keysD, List.nodup_cons] using hnd
    by_cases h : k' = k
    · subst h
      have hv : v' = v := by simpa [lookupD] using hlk
      subst hv
      calc lookupD (merge a (.cons k' v' rest)) k'
          = lookupD (merge (mergeKey a k' (lookupD a k') v') rest) k' := rfl
        _ = lookupD (mergeKey a k' (lookupD a k') v') k' :=
            lookupD_merge_not_mem _ rest k' hnd'.1
        _ = lookupD (setKey a k' (mergeVal (lookupD a k') v')) k' := by
            rw [mergeKey_eq_setKey]
        _ = some (mergeVal (lookupD a k') v') := lookupD_setKey_self a k' _
    · have hlk' : lookupD rest k = some v := by simpa [lookupD, h] using hlk
      calc lookupD (merge a (.cons k' v' rest)) k
          = lookupD (merge (mergeKey a k' (lookupD a k') v') rest) k := rfl
        _ = some (mergeVal (lookupD (mergeKey a k' (lookupD a k') v') k) v) :=
            lookupD_merge_mem _ rest k v hnd'.2 hlk'
        _ = some (mergeVal (lookupD a k) v) := by
            rw [mergeKey_eq_setKey, lookupD_setKey_ne a k' k _ h]

/- ----------------------------------------------------------------------
Round-trip: validating a `model_dump` of a settings object recovers the
object (every dumped field has the declared type).
---------------------------------------------------------------------- -/

theorem validateStrMap_go_dump (m : List (String × String)) :
    validateStrMap.go (PyObj.ofList (m.map (fun p => (p.1, PyVal.str p.2)))) = .ok m := by
  induction m with
  | nil => rfl
  | cons p rest ih => simp [PyObj.ofList, validateStrMap.go, ih, Except.map]

theorem validateStrMap_dump (m : List (String × String)) :
    validateStrMap (dumpStrMap m) = .ok m := by
  simp [dumpStrMap, validateStrMap, validateStrMap_go_dump]

theorem validateStrList_go_dump (xs : List String) :
    validateStrList.go (PyArr.ofList (xs.map PyVal.str)) = .ok xs := by
  induction xs with
  | nil => rfl
  | cons x rest ih => simp [PyArr.ofList, validateStrList.go, ih, Except.map]

theorem validateStrList_dump (xs : List String) :
    validateStrList (dumpOptStrList (some xs)) = .ok xs := by
  simp [dumpOptStrList, validateStrList, validateStrList_go_dump]

theorem optNullable_str_dump (d : PyObj) (k : String) (o : Option String)
    (h : lookupD d k = some (dumpOptStr o)) :
    optNullable d k validateStr = .ok o := by
  cases o <;> simp [optNullable, h, dumpOptStr, validateStr, Except.map]

theorem optNullable_strMap_dump (d : PyObj) (k : String)
    (o : Option (List (String × String))) (h : lookupD d k = some (dumpOptStrMap o)) :
    optNullable d k validateStrMap = .ok o := by
  cases o with
  | none => simp [optNullable, h, dumpOptStrMap]
  | some m =>
    simp [optNullable, h, dumpOptStrMap, dumpStrMap, validateStrMap,
      validateStrMap_go_dump, Except.map]

theorem optNullable_strList_dump (d : PyObj) (k : String)
    (o : Option (List String)) (h : lookupD d k = some (dumpOptStrList o)) :
    optNullable d k validateStrList = .ok o := by
  cases o with
  | none => simp [optNullable, h, dumpOptStrList]
  | some xs =>
    simp [optNullable, h, dumpOptStrList, validateStrList, validateStrList_go_dump,
      Except.map]

theorem optNullable_int_dump (d : PyObj) (k : String) (o : Option Int)
    (h : lookupD d k = some (dumpOptInt o)) :
    optNullable d k validateInt = .ok o := by
  cases o <;> simp [optNullable, h, dumpOptInt, validateInt, Rat.den_intCast,
    Rat.num_intCast, Except.map]

theorem validateModelConfig_dump (m : ModelConfig) :
    validateModelConfig m.dump = .ok m := by
  simp [ModelConfig.dump, PyObj.ofList, validateModelConfig, optField, lookupD,
    validateStr, validateRat, validateInt, Rat.den_intCast, Rat.num_intCast]
  rfl

theorem validateToolConfig_dump (t : ToolConfig) :
    validateToolConfig t.dump = .ok t := by
  obtain ⟨name, ty, enabled, description, curl, input, header, output,
    dependencies, category, max_concurrent, headers⟩ := t
  simp only [ToolConfig.dump, PyObj.ofList, validateToolConfig]
  rw [optNullable_str_dump _ "curl" curl (by simp [lookupD]),
    optNullable_strMap_dump _ "header" header (by simp [lookupD]),
    optNullable_strList_dump _ "dependencies" dependencies (by simp [lookupD]),
    optNullable_str_dump _ "category" category (by simp [lookupD]),
    optNullable_int_dump _ "max_concurrent" max_concurrent (by simp [lookupD]),
    optNullable_strMap_dump _ "headers" headers (by simp [lookupD])]
  simp [reqField, optField, lookupD, validateStr, validateBool, validateAnyDict]
  rfl

theorem validateToolList_dump (ts : List ToolConfig) :
    validateToolList (.list (PyArr.ofList (ts.map ToolConfig.dump))) = .ok ts := by
  have go : ∀ ts : List ToolConfig,
      validateToolList.go (PyArr.ofList (ts.map ToolConfig.dump)) = .ok ts := by
    intro ts
    induction ts with
    | nil => rfl
    | cons t rest ih =>
      simp [PyArr.ofList, validateToolList.go, validateToolConfig_dump, ih]
      rfl
  simp [validateToolList, go]

theorem validateAgentConfig_dump (a : AgentConfig) :
    validateAgentConfig a.dump = .ok a := by
  simp [AgentConfig.dump, PyObj.ofList, validateAgentConfig, optField, lookupD,
    validateStr, validateBool, validateToolList_dump, validateModelConfig_dump]
  rfl

theorem validateZaloOAConfig_dump (z : ZaloOAConfig) :
    validateZaloOAConfig z.dump = .ok z := by
  simp [ZaloOAConfig.dump, PyObj.ofList, validateZaloOAConfig, optField, lookupD,
    validateStr, validateBool]
  rfl

theorem validateZaloPersonalConfig_dump (z : ZaloPersonalConfig) :
    validateZaloPersonalConfig z.dump = .ok z := by
  obtain ⟨enabled, phone, password, imei, cookies⟩ := z
  simp only [ZaloPersonalConfig.dump, PyObj.ofList, validateZaloPersonalConfig]
  rw [optNullable_strMap_dump _ "cookies" cookies (by simp [lookupD])]
  simp [optField, lookupD, validateStr, validateBool]
  rfl

theorem validateZaloConfig_dump (z : ZaloConfig) :
    validateZaloConfig z.dump = .ok z := by
  simp [ZaloConfig.dump, PyObj.ofList, validateZaloConfig, optField, lookupD,
    validateZaloOAConfig_dump, validateZaloPersonalConfig_dump]
  rfl

/-- Validating the dump of any settings object recovers it. -/
theorem validateAppSettings_dump (s : AppSettings) :
    validateAppSettings (.dict s.dumpObj) = .ok s := by
  simp [AppSettings.dumpObj, PyObj.ofList, validateAppSettings, optField, lookupD,
    validateAgentConfig_dump, validateZaloConfig_dump]
  rfl

/- ----------------------------------------------------------------------
Claims C1, C2, C3 about the SettingsStore.
---------------------------------------------------------------------- -/

/-- C1: for every settings state and every patch, if re-validation of the
merged tree fails then `ConfigManager.update` raises the validation error
and both the in-memory settings and the persisted on-disk document are
exactly what they were before the call (update is atomic on the error
path). -/
theorem update_validation_failure_is_atomic (st : CMState) (data : PyObj) (e : String)
    (h : validateAppSettings (.dict (merge st.settings.dumpObj data)) = .error e) :
    ConfigManager.update st data = (.error e, st) := by
  simp [ConfigManager.update, h]

/-- A patch whose `agent_config` is not even a dict: merging it into any
dump yields a tree that fails schema re-validation. -/
def invalidPatch : PyObj := .cons "agent_config" (PyVal.num 5) .nil

def cmState0 : CMState := { settings := AppSettings.defaults, disk := none }

theorem update_validation_failure_is_atomic_witness :
    validateAppSettings
        (.dict (merge cmState0.settings.dumpObj invalidPatch)) =
      .error "AgentConfig: expected dict" ∧
    ConfigManager.update cmState0 invalidPatch =
      (.error "AgentConfig: expected dict", cmState0) :=
  ⟨rfl, update_validation_failure_is_atomic cmState0 invalidPatch _ rfl⟩

/-- C2: `ConfigManager.update` computes a structural merge-patch: the empty
patch is a no-op on the settings; a key absent from the patch keeps its
current value; for a key present in the patch, if both the current and the
patch value are dicts the merge recurses (`mergeVal`), otherwise the patch
value replaces the current value. -/
theorem update_structural_merge_patch (st : CMState) (a b : PyObj)
    (hb : (keysD b).Nodup) :
    (ConfigManager.update st .nil).1 = .ok st.settings ∧
    (ConfigManager.update st .nil).2.settings = st.settings ∧
    (∀ k, k ∉ keysD b → lookupD (merge a b) k = lookupD a k) ∧
    (∀ k v, lookupD b k = some v →
      lookupD (merge a b) k = some (mergeVal (lookupD a k) v)) := by
  refine ⟨?_, ?_, ?_, ?_⟩
  · simp [ConfigManager.update, merge, validateAppSettings_dump]
  · simp [ConfigManager.update, merge, validateAppSettings_dump, ConfigManager.save]
  · exact fun k hk => lookupD_merge_not_mem a b k hk
  · exact fun k v hv => lookupD_merge_mem a b k v hb hv

/-- A patch that touches only the `zalo_config.oa` subtree. -/
def oaPatch : PyObj :=
  .cons "zalo_config" (.dict (.cons "oa" (.dict (.cons "enabled" (.bool false) .nil)) .nil)) .nil

theorem update_structural_merge_patch_witness :
    (keysD oaPatch).Nodup ∧
    ((ConfigManager.update cmState0 .nil).1 = .ok cmState0.settings ∧
     (ConfigManager.update cmState0 .nil).2.settings = cmState0.settings ∧
     (∀ k, k ∉ keysD oaPatch →
       lookupD (merge cmState0.settings.dumpObj oaPatch) k =
         lookupD cmState0.settings.dumpObj k) ∧
     (∀ k v, lookupD oaPatch k = some v →
       lookupD (merge cmState0.settings.dumpObj oaPatch) k =
         some (mergeVal (lookupD cmState0.settings.dumpObj k) v))) :=
  ⟨by decide, update_structural_merge_patch cmState0 cmState0.settings.dumpObj oaPatch
    (by decide)⟩

/-- Discriminator for the raising (`error`) outcome of a fallible call. -/
def exceptOk : Except String AppSettings → Bool
  | .ok _ => true
  | .error _ => false

/-- A persisted document that parses as JSON but violates the settings
schema (`agent_config` is a number, not an object). -/
def badConfigDoc : PyVal := .dict (.cons "agent_config" (PyVal.num 5) .nil)

/-- C3 counterexample: a file whose content parses as JSON but fails schema
validation makes `ConfigManager.load` raise (the `model_validate` call at
app_settings.py:89 sits outside the `try`), instead of falling back to the
built-in defaults as the claim states. -/
theorem load_raises_on_schema_invalid_file :
    exceptOk (ConfigManager.load (some (.ok badConfigDoc))) = false := rfl

/-- C3 (amended): `load` completes without raising and yields the built-in
defaults when the file is missing or its content cannot be parsed; but
when the content parses and fails schema validation, the validation error
propagates out of `load` (such a file does block boot). -/
theorem load_fail_soft_only_for_missing_or_corrupt :
    ConfigManager.load none = .ok AppSettings.defaults ∧
    (∀ e, ConfigManager.load (some (.error e)) = .ok AppSettings.defaults) ∧
    (∀ v, ConfigManager.load (some (.ok v)) = validateAppSettings v) :=
  ⟨rfl, fun _ => rfl, fun _ => rfl⟩

/- ----------------------------------------------------------------------
AgentAdvisor (`services/advisor/agent.py`): the LLM-agent session.
---------------------------------------------------------------------- -/

/-- An entry of `self.enabled_tools` (agent.py:92): either a `ToolConfig`
descriptor from `agent_config.tools`, or one of the default tool-name
strings used when the configured list is empty (falsy). -/
inductive ToolEntry where
  | desc (t : ToolConfig)
  | name (s : String)
deriving DecidableEq

/-- `agent_config.tools or ["google_search", "scraper_content"]`
(agent.py:92). -/
def load_enabled_tools (tools : List ToolConfig) : List ToolEntry :=
  if tools.isEmpty then [.name "google_search", .name "scraper_content"]
  else tools.map .desc

/-- Python `"some_name" in self.enabled_tools` (agent.py:169,171): equality
of a `str` against a `ToolConfig` pydantic object is always `False`, so
only a string entry can match. -/
def entryMatches (s : String) : ToolEntry → Bool
  | .desc _ => false
  | .name n => n == s

/-- The LLM handle owned by the agent: a real `ChatGroq` client carrying
the credential it was built with, or the `MockLLM` stand-in; `id` is the
allocation tag standing for Python object identity. -/
inductive LLMHandle where
  | groq (key : String) (id : Nat)
  | mock (id : Nat)
deriving DecidableEq

/-- Mutable state of an `AgentAdvisor` (agent.py:44-94), together with the
`GROQ_API_KEY` process environment variable (`""` = unset) and an
allocation counter modelling object identity of freshly constructed
resources. -/
structure AgentState where
  is_enabled : Bool
  is_initialized : Bool
  llm : Option LLMHandle
  tools : List String
  agent : Option Nat
  enabled_tools : List ToolEntry
  model_name : String
  temperature : Rat
  max_tokens : Int
  prompt : String
  cfg_api_key : String
  env_key : String
  nextAlloc : Nat
deriving DecidableEq

/-- `AgentAdvisor._initialize_llm` (agent.py:124-164): credential comes
from the environment first, else from config (also exported back into the
environment); with no credential a `MockLLM` is constructed, otherwise a
`ChatGroq` client.  `groqCtorOk` is the outcome of the `ChatGroq(...)`
constructor; on a constructor exception the `except` branch falls back to
`MockLLM` as well. -/
def AgentAdvisor.initialize_llm (s : AgentState) (groqCtorOk : Bool) : AgentState :=
  let api_key := if s.env_key ≠ "" then s.env_key else s.cfg_api_key
  let s :=
    if s.env_key = "" ∧ s.cfg_api_key ≠ "" then { s with env_key := s.cfg_api_key } else s
  if api_key = "" then
    { s with llm := some (.mock s.nextAlloc), nextAlloc := s.nextAlloc + 1 }
  else if groqCtorOk then
    { s with llm := some (.groq api_key s.nextAlloc), nextAlloc := s.nextAlloc + 1 }
  else
    { s with llm := some (.mock s.nextAlloc), nextAlloc := s.nextAlloc + 1 }

/-- `AgentAdvisor._initialize_tools` (agent.py:166-175): resets
`self.tools`, appends a `GoogleSearchTool` if `"google_search"` matches an
entry, then constructs `ScraperContentTool()` if `"scraper_content"`
matches — that constructor call omits the required `tool_config` argument
(scraper_content_tool.py:29), so it raises `TypeError`; the error is
returned to the caller, along with the tools list as mutated so far. -/
def AgentAdvisor.initialize_tools (s : AgentState) : Except String Unit × AgentState :=
  let t1 :=
    if s.enabled_tools.any (entryMatches "google_search") then ["google_search"] else []
  if s.enabled_tools.any (entryMatches "scraper_content") then
    (.error "TypeError: ScraperContentTool missing required argument tool_config",
     { s with tools := t1 })
  else
    (.ok (), { s with tools := t1 })

/-- `AgentAdvisor.build` (agent.py:205-228): returns the new react agent,
or `none` when disabled or no LLM; a `create_react_agent` failure is
caught and replaced by a fallback callable, so `build` never raises. -/
def AgentAdvisor.build (s : AgentState) : Option Nat × AgentState :=
  if ¬ s.is_enabled then (none, s)
  else
    match s.llm with
    | none => (none, s)
    | some _ => (some s.nextAlloc, { s with nextAlloc := s.nextAlloc + 1 })

/-- `AgentAdvisor.initializeAgent` (agent.py:96-122): returns `False` untouched
when disabled, short-circuits with `True` when already initialized, and
otherwise runs LLM init, tool init and build inside a `try`; any raised
error is caught, leaving `is_initialized = False` and returning `False`. -/
def AgentAdvisor.initializeAgent (s : AgentState) (groqCtorOk : Bool) : Bool × AgentState :=
  if ¬ s.is_enabled then (false, s)
  else if s.is_initialized then (true, s)
  else
    let s1 := AgentAdvisor.initialize_llm s groqCtorOk
    match AgentAdvisor.initialize_tools s1 with
    | (.error _, s2) => (false, { s2 with is_initialized := false })
    | (.ok _, s2) =>
      let r := AgentAdvisor.build s2
      (true, { r.2 with agent := r.1, is_initialized := true })

/- ----------------------------------------------------------------------
Claims C4 and C5 about the agent session and the tool registry.
---------------------------------------------------------------------- -/

/-- A tool descriptor with `enabled = false`. -/
def sampleDisabledTool : ToolConfig :=
  { name := "custom_api", type := "api", enabled := false, description := "sample",
    curl := none, input := .nil, header := none, output := .nil,
    dependencies := none, category := none, max_concurrent := none, headers := none }

/-- An enabled agent, never initialized, with no credential in the
environment nor in the config, and one (disabled) configured descriptor. -/
def agentNoCredential : AgentState :=
  { is_enabled := true, is_initialized := false, llm := none, tools := [],
    agent := none, enabled_tools := load_enabled_tools [sampleDisabledTool],
    model_name := "llama3-8b-8192", temperature := (7 : Rat) / 10, max_tokens := 2048,
    prompt := "You are a helpful Zalo assistant.", cfg_api_key := "", env_key := "",
    nextAlloc := 0 }

/-- C4 counterexample: with `agent_config.enabled = true` and no credential
anywhere (`GROQ_API_KEY` unset, config `api_key` empty), `initialize()`
still returns `True` and the session reaches the initialized state — a
`MockLLM` is silently substituted (agent.py:137-144), so a missing
credential does not prevent Ready, contradicting the claim. -/
theorem agent_reaches_ready_without_credential :
    agentNoCredential.env_key = "" ∧ agentNoCredential.cfg_api_key = "" ∧
    (AgentAdvisor.initializeAgent agentNoCredential true).1 = true ∧
    (AgentAdvisor.initializeAgent agentNoCredential true).2.is_initialized = true ∧
    (AgentAdvisor.initializeAgent agentNoCredential true).2.llm = some (.mock 0) := by
  decide

/-- C4 (amended): when `enabled = true` and the session is not yet
initialized (and tool construction does not raise, i.e. the default
`"scraper_content"` entry is not present), `initialize()` always reaches
the initialized state; with no credential the LLM handle is the `MockLLM`
stand-in, and a real `ChatGroq` client exists only when a credential is
present in the environment or the config. -/
theorem agent_ready_without_credential_is_mock (s : AgentState) (g : Bool)
    (hen : s.is_enabled = true) (hini : s.is_initialized = false)
    (hscr : s.enabled_tools.any (entryMatches "scraper_content") = false) :
    (AgentAdvisor.initializeAgent s g).1 = true ∧
    (AgentAdvisor.initializeAgent s g).2.is_initialized = true ∧
    (s.env_key = "" → s.cfg_api_key = "" →
      (AgentAdvisor.initializeAgent s g).2.llm = some (.mock s.nextAlloc)) ∧
    (∀ k i, (AgentAdvisor.initializeAgent s g).2.llm = some (.groq k i) →
      s.env_key ≠ "" ∨ s.cfg_api_key ≠ "") := by
  by_cases henv : s.env_key = "" <;> by_cases hcfg : s.cfg_api_key = "" <;> cases g <;>
    simp [AgentAdvisor.initializeAgent, AgentAdvisor.initialize_llm,
      AgentAdvisor.initialize_tools, AgentAdvisor.build, hen, hini, hscr, henv, hcfg]

theorem agent_ready_without_credential_is_mock_witness :
    (agentNoCredential.is_enabled = true ∧ agentNoCredential.is_initialized = false ∧
     agentNoCredential.enabled_tools.any (entryMatches "scraper_content") = false) ∧
    ((AgentAdvisor.initializeAgent agentNoCredential true).1 = true ∧
     (AgentAdvisor.initializeAgent agentNoCredential true).2.is_initialized = true ∧
     (agentNoCredential.env_key = "" → agentNoCredential.cfg_api_key = "" →
       (AgentAdvisor.initializeAgent agentNoCredential true).2.llm =
         some (.mock agentNoCredential.nextAlloc)) ∧
     (∀ k i,
       (AgentAdvisor.initializeAgent agentNoCredential true).2.llm = some (.groq k i) →
       agentNoCredential.env_key ≠ "" ∨ agentNoCredential.cfg_api_key ≠ "")) :=
  ⟨⟨rfl, rfl, by decide⟩,
   agent_ready_without_credential_is_mock agentNoCredential true rfl rfl (by decide)⟩

/-- C5: a descriptor with `enabled = false` never produces a capability
instance.  In fact, whenever the configured descriptor list is non-empty,
the membership tests of `_initialize_tools` compare strings against
`ToolConfig` objects and never match, so the built set is empty — in
particular no member of it is named after a disabled descriptor. -/
theorem disabled_descriptor_yields_no_capability (tools : List ToolConfig)
    (d : ToolConfig) (s : AgentState)
    (hd : d ∈ tools) (hdis : d.enabled = false)
    (hset : s.enabled_tools = load_enabled_tools tools) :
    (AgentAdvisor.initialize_tools s).2.tools = [] ∧
    d.name ∉ (AgentAdvisor.initialize_tools s).2.tools := by
  have hne : ¬ tools.isEmpty = true := by
    cases tools with
    | nil => cases hd
    | cons t rest => simp [List.isEmpty]
  have hmap : s.enabled_tools = tools.map ToolEntry.desc := by
    rw [hset, load_enabled_tools, if_neg hne]
  have hany : ∀ str : String,
      (tools.map ToolEntry.desc).any (entryMatches str) = false := by
    intro str
    simp [List.any_map, Function.comp, entryMatches]
  constructor
  · simp [AgentAdvisor.initialize_tools, hmap, hany]
  · simp [AgentAdvisor.initialize_tools, hmap, hany]

theorem disabled_descriptor_yields_no_capability_witness :
    (sampleDisabledTool ∈ [sampleDisabledTool] ∧
     sampleDisabledTool.enabled = false ∧
     agentNoCredential.enabled_tools = load_enabled_tools [sampleDisabledTool]) ∧
    ((AgentAdvisor.initialize_tools agentNoCredential).2.tools = [] ∧
     sampleDisabledTool.name ∉ (AgentAdvisor.initialize_tools agentNoCredential).2.tools) :=
  ⟨⟨by decide, rfl, rfl⟩,
   disabled_descriptor_yields_no_capability [sampleDisabledTool] sampleDisabledTool
     agentNoCredential (by decide) rfl rfl⟩

/- ----------------------------------------------------------------------
ZaloBot (`services/zalo/bot.py`): the messaging session.
---------------------------------------------------------------------- -/

/-- Mutable state of a `ZaloBot` (bot.py:16-31): lifecycle flags, the
background listen thread (`some b` = a thread object whose `is_alive()`
is `b`; `none` = never started), the message handler and the underlying
`ZaloAPI` connection (allocation tags standing for object identity), and
an allocation counter. -/
structure BotState where
  is_enabled : Bool
  is_connected : Bool
  listen_thread : Option Bool
  last_activity : Nat
  message_handler : Option Nat
  conn : Option Nat
  phone : String
  password : String
  imei : String
  nextAlloc : Nat
deriving DecidableEq

/-- `ZaloBot.connect` (bot.py:37-55): short-circuits with `True` when
already connected; otherwise runs the `ZaloAPI` handshake (`ctorOk` is its
outcome), creates the message handler and sets `is_connected`; a raised
handshake error is caught and `False` returned. -/
def ZaloBot.connect (s : BotState) (ctorOk : Bool) : Bool × BotState :=
  if s.is_connected then (true, s)
  else if ctorOk then
    (true,
     { s with conn := some s.nextAlloc, message_handler := some (s.nextAlloc + 1),
              is_connected := true, nextAlloc := s.nextAlloc + 2 })
  else (false, { s with is_connected := false })

/-- The thread-spawning tail of `ZaloBot.start_listening` (bot.py:68-80):
a live listener makes the call a no-op, otherwise a fresh daemon thread is
started. -/
def ZaloBot.startThread (s : BotState) : Bool × BotState :=
  if s.listen_thread = some true then (true, s)
  else (true, { s with listen_thread := some true })

/-- `ZaloBot.start_listening` (bot.py:57-80): refuses when disabled,
connects first if not connected, then spawns the listener thread unless
one is already alive. -/
def ZaloBot.start_listening (s : BotState) (ctorOk : Bool) : Bool × BotState :=
  if ¬ s.is_enabled then (false, s)
  else if ¬ s.is_connected then
    match ZaloBot.connect s ctorOk with
    | (true, s') => ZaloBot.startThread s'
    | (false, s') => (false, s')
  else ZaloBot.startThread s

/-- `ZaloBot.disconnect` (bot.py:129-140): when connected, logs out
(`logoutOk` is the outcome of `self.logout()`) and clears `is_connected`;
a raised logout error is caught, leaving `is_connected` as it was and
returning `False`.  The listen thread and other references are untouched. -/
def ZaloBot.disconnect (s : BotState) (logoutOk : Bool) : Bool × BotState :=
  if s.is_connected then
    if logoutOk then (true, { s with is_connected := false })
    else (false, s)
  else (true, s)

/-- `ZaloBot.handle_enabled_state_change` (bot.py:142-174): no-op when the
flag does not change; on enable, connect then start listening; on disable,
disconnect only. -/
def ZaloBot.handle_enabled_state_change (s : BotState) (new_state : Bool)
    (ctorOk logoutOk : Bool) : BotState :=
  if new_state = s.is_enabled then s
  else
    let s1 : BotState := { s with is_enabled := new_state }
    if new_state then
      match ZaloBot.connect s1 ctorOk with
      | (true, s2) => (ZaloBot.start_listening s2 ctorOk).2
      | (false, s2) => s2
    else (ZaloBot.disconnect s1 logoutOk).2

/-- The status dict returned by `ZaloBot.get_status` (bot.py:205-212). -/
structure BotStatus where
  enabled : Bool
  connected : Bool
  listening : Bool
  last_activity : Nat
deriving DecidableEq

/-- `ZaloBot.get_status`: `listening` is `self.listen_thread is not None
and self.listen_thread.is_alive()`. -/
def ZaloBot.get_status (s : BotState) : BotStatus :=
  { enabled := s.is_enabled, connected := s.is_connected,
    listening := s.listen_thread == some true, last_activity := s.last_activity }

/-- Externally visible effects of `ZaloBot.onMessage`. -/
inductive BotAction where
  | processed (mid : String)
  | sent (response thread_id thread_type : String)
deriving DecidableEq

/-- `ZaloBot.onMessage` (bot.py:82-117): drops the message when disabled or
not connected; drops it silently when `message_object.uidFrom` equal to the string `"0"`
(self/system message); otherwise stamps `last_activity`, hands the message
to the handler (`process` models `MessageHandler.process_message`) and
sends the returned response, if any. -/
def ZaloBot.onMessage (s : BotState) (mid uidFrom msg thread_id thread_type : String)
    (now : Nat) (process : String → Option String) : BotState × List BotAction :=
  if ¬ s.is_enabled ∨ ¬ s.is_connected then (s, [])
  else if uidFrom ≠ "0" then
    let s' : BotState := { s with last_activity := now }
    match s.message_handler with
    | some _ =>
      match process msg with
      | some r => (s', [.processed mid, .sent r thread_id thread_type])
      | none => (s', [.processed mid])
    | none => (s', [])
  else (s, [])

/- ----------------------------------------------------------------------
Claims C6, C7, C10 about the messaging session lifecycle.
---------------------------------------------------------------------- -/

/-- An enabled, connected bot with a live background listener thread. -/
def botListening : BotState :=
  { is_enabled := true, is_connected := true, listen_thread := some true,
    last_activity := 0, message_handler := some 1, conn := some 0,
    phone := "84000000000", password := "pw", imei := "imei-1", nextAlloc := 2 }

/-- C6 counterexample: after `handle_enabled_state_change(false)` on an
enabled, connected, listening session, the status reports
`enabled = false` and `connected = false` but `listening` is still `true`:
the disable path (bot.py:167-174) only calls `disconnect()` and never
cancels or joins the background listen thread, so the claim that all three
status bits are forced false fails. -/
theorem disable_reports_listening_true :
    (ZaloBot.get_status
      (ZaloBot.handle_enabled_state_change botListening false true true)).enabled
        = false ∧
    (ZaloBot.get_status
      (ZaloBot.handle_enabled_state_change botListening false true true)).connected
        = false ∧
    (ZaloBot.get_status
      (ZaloBot.handle_enabled_state_change botListening false true true)).listening
        = true := by
  decide

/-- C6 (amended): `handle_enabled_state_change(false)` on an enabled
session forces `enabled = false` and — provided `logout()` does not raise —
`connected = false`, but it never touches the background listen thread, so
the status's `listening` bit keeps reporting the pre-existing thread's
aliveness. -/
theorem disable_forces_flags_but_not_listener (s : BotState) (c : Bool)
    (hen : s.is_enabled = true) :
    (ZaloBot.handle_enabled_state_change s false c true).is_enabled = false ∧
    (ZaloBot.handle_enabled_state_change s false c true).is_connected = false ∧
    (ZaloBot.handle_enabled_state_change s false c true).listen_thread
      = s.listen_thread ∧
    (ZaloBot.get_status (ZaloBot.handle_enabled_state_change s false c true)).listening
      = (s.listen_thread == some true) := by
  by_cases hco : s.is_connected <;>
    simp [ZaloBot.handle_enabled_state_change, hen, ZaloBot.disconnect, hco,
      ZaloBot.get_status]

theorem disable_forces_flags_but_not_listener_witness :
    botListening.is_enabled = true ∧
    ((ZaloBot.handle_enabled_state_change botListening false true true).is_enabled
        = false ∧
     (ZaloBot.handle_enabled_state_change botListening false true true).is_connected
        = false ∧
     (ZaloBot.handle_enabled_state_change botListening false true true).listen_thread
        = botListening.listen_thread ∧
     (ZaloBot.get_status
       (ZaloBot.handle_enabled_state_change botListening false true true)).listening
        = (botListening.listen_thread == some true)) :=
  ⟨rfl, disable_forces_flags_but_not_listener botListening true rfl⟩

/-- An agent session that has reached the initialized state. -/
def agentReady : AgentState :=
  { agentNoCredential with
    is_initialized := true
    llm := some (.mock 0)
    agent := some 1
    nextAlloc := 2 }

/-- C7: `enable()`/`initialize()` is idempotent.  On a session already in
the Ready state a second call returns success and leaves the whole state —
in particular the LLM handle, respectively the `ZaloAPI` connection —
identical (no reallocation):  `AgentAdvisor.initializeAgent` short-circuits on
`is_initialized` (agent.py:102-104) and `ZaloBot.connect` short-circuits
on `is_connected` (bot.py:39-41). -/
theorem enable_idempotent_no_reallocation (a : AgentState) (g : Bool)
    (b : BotState) (c : Bool)
    (ha1 : a.is_enabled = true) (ha2 : a.is_initialized = true)
    (hb : b.is_connected = true) :
    AgentAdvisor.initializeAgent a g = (true, a) ∧ ZaloBot.connect b c = (true, b) := by
  constructor
  · simp [AgentAdvisor.initializeAgent, ha1, ha2]
  · simp [ZaloBot.connect, hb]

theorem enable_idempotent_no_reallocation_witness :
    (agentReady.is_enabled = true ∧ agentReady.is_initialized = true ∧
     botListening.is_connected = true) ∧
    (AgentAdvisor.initializeAgent agentReady true = (true, agentReady) ∧
     ZaloBot.connect botListening true = (true, botListening)) :=
  ⟨⟨rfl, rfl, rfl⟩,
   enable_idempotent_no_reallocation agentReady true botListening true rfl rfl rfl⟩

/-- C10: while the bot is enabled and connected, an incoming message whose
`message_object.uidFrom` equals the string `"0"` is silently ignored (bot.py:92): the
state — in particular `last_activity` — is unchanged, no handler is
invoked and no response is sent. -/
theorem onMessage_ignores_uidFrom_zero (s : BotState)
    (mid msg tid tty : String) (now : Nat) (process : String → Option String)
    (hen : s.is_enabled = true) (hco : s.is_connected = true) :
    ZaloBot.onMessage s mid "0" msg tid tty now process = (s, []) := by
  simp [ZaloBot.onMessage, hen, hco]

theorem onMessage_ignores_uidFrom_zero_witness :
    (botListening.is_enabled = true ∧ botListening.is_connected = true) ∧
    ZaloBot.onMessage botListening "m1" "0" "hello" "t1" "USER" 5
      (fun _ => some "reply") = (botListening, []) :=
  ⟨⟨rfl, rfl⟩,
   onMessage_ignores_uidFrom_zero botListening "m1" "hello" "t1" "USER" 5
     (fun _ => some "reply") rfl rfl⟩

/- ----------------------------------------------------------------------
Webhook boundary (`main.py:66-106`) and claim C8.
---------------------------------------------------------------------- -/

/-- A Python string-like value at the webhook boundary: the raw request
body `await request.body()` is `bytes`; `verify_signature` treats its
argument as `str`.  `content` carries the decoded text in both cases. -/
inductive PyTextual where
  | str (content : String)
  | bytes (content : String)
deriving DecidableEq

/-- Python `.encode()`: defined on `str`, but a `bytes` object has no
`encode` attribute, so the call raises `AttributeError`. -/
def pyEncode : PyTextual → Except String String
  | .str s => .ok s
  | .bytes _ => .error "AttributeError: bytes object has no attribute encode"

/-- `verify_signature` (main.py:93-106): a missing or empty `mac` header
returns `False` before anything else; otherwise `body.encode()` is
evaluated (raising if `body` is `bytes`) and the HMAC-SHA256 hex digest of
the body under the secret (`hm` stands for the `hmac`/`hashlib` library
computation) is compared to the header with `hmac.compare_digest`
(constant time). -/
def verify_signature (hm : String → String → String) (secret : String)
    (body : PyTextual) (mac : Option String) : Except String Bool :=
  match mac with
  | none => .ok false
  | some m =>
    if m = "" then .ok false
    else
      match pyEncode body with
      | .error e => .error e
      | .ok b => .ok (hm secret b == m)

/-- Observable outcome of the `POST /webhook` handler: the JSON response,
the events dispatched into the lifecycle-controlled core, and the
verification result that is only printed. -/
structure WebhookResponse where
  status : String
  dispatched : List String
  logged_verified : Bool
deriving DecidableEq

/-- `zalo_webhook` (main.py:66-90): reads the raw `bytes` body, calls
`verify_signature(body, mac)` on it only for a `print` (main.py:76) —
this call sits before the `try` at line 81, so when it raises (it does
for every non-empty `mac` header, since the `bytes` body has no
`.encode()`), the exception escapes the handler (an HTTP 500).  When it
does not raise, its result is discarded ("Skip signature verification for
now"), the body is parsed (`parse` is that outcome) and `{"status":
"success"}` is returned on both the parse-success and the exception
branch; no event is handed to any component. -/
def zalo_webhook (hm : String → String → String) (secret rawBody : String)
    (mac : Option String) (parse : Except String PyVal) : Except String WebhookResponse :=
  match verify_signature hm secret (.bytes rawBody) mac with
  | .error e => .error e
  | .ok verified =>
    match parse with
    | .ok _ => .ok { status := "success", dispatched := [], logged_verified := verified }
    | .error _ => .ok { status := "success", dispatched := [], logged_verified := verified }

/-- A stand-in HMAC whose digest of this request is `"aa"`. -/
def hmStub : String → String → String := fun _ _ => "aa"

/-- C8 counterexample: a request carrying no `mac` header fails signature
verification (`verify_signature` yields `False`), yet it is not rejected —
the handler acknowledges it with `{"status": "success"}`, the check result
having only been printed. -/
theorem webhook_unsigned_request_not_rejected :
    verify_signature hmStub "secret" (.bytes "body") none = .ok false ∧
    zalo_webhook hmStub "secret" "body" none (.ok (.dict .nil)) =
      .ok { status := "success", dispatched := [], logged_verified := false } :=
  ⟨rfl, rfl⟩

/-- C8 (amended): the handler never successfully verifies a signature.  A
request with missing or empty `mac` header skips the digest entirely
(`verify_signature` short-circuits to `False`, which is only printed) and
is acknowledged with `"success"` without any event being dispatched into
the core; a request with a non-empty `mac` header crashes the handler
before the `try` — `verify_signature` calls `.encode()` on the raw
`bytes` body (main.py:73,76,102), raising `AttributeError` — so it ends
in a server error, neither a rejection by signature nor an
acknowledgement. -/
theorem webhook_never_enforces_signature (hm : String → String → String)
    (secret rawBody : String) (parse : Except String PyVal) :
    zalo_webhook hm secret rawBody none parse
      = .ok { status := "success", dispatched := [], logged_verified := false } ∧
    (∀ m : String,
      zalo_webhook hm secret rawBody (some m) parse
        = if m = ""
          then .ok { status := "success", dispatched := [], logged_verified := false }
          else .error "AttributeError: bytes object has no attribute encode") := by
  refine ⟨?_, fun m => ?_⟩
  · cases parse <;> rfl
  · by_cases hm0 : m = "" <;> cases parse <;>
      simp [zalo_webhook, verify_signature, pyEncode, hm0]

/- ----------------------------------------------------------------------
Further dict lemmas: key preservation, extensionality, and commutation of
merges with disjoint patches.
---------------------------------------------------------------------- -/

theorem lookupD_eq_none_of_not_mem : (p : PyObj) → (k : String) → k ∉ keysD p →
    lookupD p k = none
  | .nil, _, _ => rfl
  | .cons k' v rest, k, h => by
    have hne : k' ≠ k := by intro e; exact h (by simp [keysD, e])
    have hrest : k ∉ keysD rest := by intro m; exact h (by simp [keysD]; exact Or.inr m)
    simp [lookupD, hne, lookupD_eq_none_of_not_mem rest k hrest]

theorem lookupD_isSome_of_mem : (p : PyObj) → (k : String) → k ∈ keysD p →
    ∃ v, lookupD p k = some v
  | .nil, k, h => by simp [keysD] at h
  | .cons k' v rest, k, h => by
    by_cases he : k' = k
    · exact ⟨v, by simp [lookupD, he]⟩
    · have : k ∈ keysD rest := by
        rcases (by simpa [keysD] using h : k = k' ∨ k ∈ keysD rest) with h1 | h1
        · exact absurd h1.symm he
        · exact h1
      obtain ⟨w, hw⟩ := lookupD_isSome_of_mem rest k this
      exact ⟨w, by simp [lookupD, he, hw]⟩

theorem keysD_setKey_mem : (a : PyObj) → (k : String) → (v : PyVal) → k ∈ keysD a →
    keysD (setKey a k v) = keysD a
  | .nil, k, v, h => by simp [keysD] at h
  | .cons k' v' rest, k, v, h => by
    by_cases he : k' = k
    · simp [setKey, he, keysD]
    · have : k ∈ keysD rest := by
        rcases (by simpa [keysD] using h : k = k' ∨ k ∈ keysD rest) with h1 | h1
        · exact absurd h1.symm he
        · exact h1
      simp [setKey, he, keysD, keysD_setKey_mem rest k v this]

theorem keysD_merge_sub : (d p : PyObj) → (∀ k ∈ keysD p, k ∈ keysD d) →
    keysD (merge d p) = keysD d
  | _, .nil, _ => rfl
  | d, .cons k v rest, h => by
    have hk : k ∈ keysD d := h k (by simp [keysD])
    have hset : keysD (mergeKey d k (lookupD d k) v) = keysD d := by
      rw [mergeKey_eq_setKey]; exact keysD_setKey_mem d k _ hk
    have hrest : ∀ k' ∈ keysD rest, k' ∈ keysD (mergeKey d k (lookupD d k) v) := by
      intro k' hk'; rw [hset]; exact h k' (by simp [keysD]; exact Or.inr hk')
    calc keysD (merge d (.cons k v rest))
        = keysD (merge (mergeKey d k (lookupD d k) v) rest) := rfl
      _ = keysD (mergeKey d k (lookupD d k) v) := keysD_merge_sub _ rest hrest
      _ = keysD d := hset

/-- Two dicts with duplicate-free, identical key sequences and identical
lookups are equal. -/
theorem objExt : (x y : PyObj) → (keysD x).Nodup → keysD x = keysD y →
    (∀ k, lookupD x k = lookupD y k) → x = y
  | .nil, y, _, hk, _ => by
    cases y with
    | nil => rfl
    | cons k v yt => simp [keysD] at hk
  | .cons k v xt, y, hnd, hk, hl => by
    cases y with
    | nil => simp [keysD] at hk
    | cons k2 v2 yt =>
      have hkk : k = k2 ∧ keysD xt = keysD yt := by simpa [keysD] using hk
      obtain ⟨rfl, hkeys⟩ := hkk
      have hv : v = v2 := by
        have := hl k
        simpa [lookupD] using this
      subst hv
      have hnd' : (keysD xt).Nodup ∧ k ∉ keysD xt := by
        have := (by simpa [keysD, List.nodup_cons] using hnd :
          k ∉ keysD xt ∧ (keysD xt).Nodup)
        exact ⟨this.2, this.1⟩
      have htail : xt = yt := by
        apply objExt xt yt hnd'.1 hkeys
        intro k'
        by_cases he : k' = k
        · subst he
          rw [lookupD_eq_none_of_not_mem xt k' hnd'.2,
            lookupD_eq_none_of_not_mem yt k' (hkeys ▸ hnd'.2)]
        · have := hl k'
          simpa [lookupD, Ne.symm he] using this
      rw [htail]

/-- Merging two patches with disjoint key sets (each touching only keys
already present in the base dict) commutes. -/
theorem merge_merge_comm (d pa pb : PyObj)
    (hnd : (keysD d).Nodup) (hna : (keysD pa).Nodup) (hnb : (keysD pb).Nodup)
    (hsa : ∀ k ∈ keysD pa, k ∈ keysD d) (hsb : ∀ k ∈ keysD pb, k ∈ keysD d)
    (hdisj : ∀ k ∈ keysD pa, k ∉ keysD pb) :
    merge (merge d pa) pb = merge (merge d pb) pa := by
  have hka : keysD (merge d pa) = keysD d := keysD_merge_sub d pa hsa
  have hkb : keysD (merge d pb) = keysD d := keysD_merge_sub d pb hsb
  have hsb' : ∀ k ∈ keysD pb, k ∈ keysD (merge d pa) := fun k h => hka ▸ hsb k h
  have hsa' : ∀ k ∈ keysD pa, k ∈ keysD (merge d pb) := fun k h => hkb ▸ hsa k h
  apply objExt
  · rw [keysD_merge_sub _ pb hsb', hka]; exact hnd
  · rw [keysD_merge_sub _ pb hsb', hka, keysD_merge_sub _ pa hsa', hkb]
  · intro k
    by_cases hCa : k ∈ keysD pa
    · have hCb : k ∉ keysD pb := hdisj k hCa
      obtain ⟨va, hva⟩ := lookupD_isSome_of_mem pa k hCa
      rw [lookupD_merge_not_mem _ pb k hCb, lookupD_merge_mem d pa k va hna hva,
        lookupD_merge_mem _ pa k va hna hva, lookupD_merge_not_mem d pb k hCb]
    · by_cases hCb : k ∈ keysD pb
      · obtain ⟨vb, hvb⟩ := lookupD_isSome_of_mem pb k hCb
        rw [lookupD_merge_mem _ pb k vb hnb hvb, lookupD_merge_not_mem d pa k hCa,
          lookupD_merge_not_mem _ pa k hCa, lookupD_merge_mem d pb k vb hnb hvb]
      · rw [lookupD_merge_not_mem _ pb k hCb, lookupD_merge_not_mem d pa k hCa,
          lookupD_merge_not_mem _ pa k hCa, lookupD_merge_not_mem d pb k hCb]

theorem mem_of_lookupD_some (p : PyObj) (k : String) (v : PyVal)
    (h : lookupD p k = some v) : k ∈ keysD p := by
  by_contra hn
  rw [lookupD_eq_none_of_not_mem p k hn] at h
  cases h

/-- The effect of re-validating `merge (dump s) p` on one top-level field
with validator `f`, serializer `g` and current value `cur`: if the patch
binds the field key, the field validator runs on the merged value,
otherwise the field keeps its current (already validated) value. -/
def fieldPatch {α : Type} (f : PyVal → Except String α) (g : α → PyVal)
    (cur : α) (p : PyObj) (k : String) : Except String α :=
  match lookupD p k with
  | some v => f (mergeVal (some (g cur)) v)
  | none => .ok cur

/-- Re-validating the merge of a patch into a settings dump decomposes
into the two independent top-level fields. -/
theorem validateAppSettings_merge_split (s : AppSettings) (p : PyObj)
    (hnp : (keysD p).Nodup) :
    validateAppSettings (.dict (merge s.dumpObj p)) =
      (do
        let a ← fieldPatch validateAgentConfig AgentConfig.dump s.agent_config p
          "agent_config"
        let z ← fieldPatch validateZaloConfig ZaloConfig.dump s.zalo_config p
          "zalo_config"
        Except.ok { agent_config := a, zalo_config := z }) := by
  have hbaseA : lookupD s.dumpObj "agent_config"
      = some (AgentConfig.dump s.agent_config) := rfl
  have hbaseZ : lookupD s.dumpObj "zalo_config"
      = some (ZaloConfig.dump s.zalo_config) := rfl
  have hselSome : ∀ (k : String) (dv v : PyVal), lookupD s.dumpObj k = some dv →
      lookupD p k = some v →
      lookupD (merge s.dumpObj p) k = some (mergeVal (some dv) v) := by
    intro k dv v hdv hpk
    rw [lookupD_merge_mem s.dumpObj p k v hnp hpk, hdv]
  have hselNone : ∀ (k : String) (dv : PyVal), lookupD s.dumpObj k = some dv →
      lookupD p k = none →
      lookupD (merge s.dumpObj p) k = some dv := by
    intro k dv hdv hpk
    have hnm : k ∉ keysD p := by
      intro hmem
      obtain ⟨w, hw⟩ := lookupD_isSome_of_mem p k hmem
      rw [hw] at hpk
      cases hpk
    rw [lookupD_merge_not_mem s.dumpObj p k hnm, hdv]
  cases hpa : lookupD p "agent_config" with
  | none =>
    cases hpz : lookupD p "zalo_config" with
    | none =>
      simp [validateAppSettings, optField, fieldPatch, hpa, hpz,
        hselNone _ _ hbaseA hpa, hselNone _ _ hbaseZ hpz,
        validateAgentConfig_dump, validateZaloConfig_dump]
    | some vz =>
      simp [validateAppSettings, optField, fieldPatch, hpa, hpz,
        hselNone _ _ hbaseA hpa, hselSome _ _ _ hbaseZ hpz,
        validateAgentConfig_dump]
  | some va =>
    cases hpz : lookupD p "zalo_config" with
    | none =>
      simp [validateAppSettings, optField, fieldPatch, hpa, hpz,
        hselSome _ _ _ hbaseA hpa, hselNone _ _ hbaseZ hpz,
        validateZaloConfig_dump]
    | some vz =>
      simp [validateAppSettings, optField, fieldPatch, hpa, hpz,
        hselSome _ _ _ hbaseA hpa, hselSome _ _ _ hbaseZ hpz]

/-- Inversion of a successful two-field validation. -/
theorem settingsPair_ok (ea : Except String AgentConfig)
    (ez : Except String ZaloConfig) (s : AppSettings)
    (h : (do
      let a ← ea
      let z ← ez
      Except.ok ({ agent_config := a, zalo_config := z } : AppSettings)) = .ok s) :
    ea = .ok s.agent_config ∧ ez = .ok s.zalo_config := by
  cases ea with
  | error e => simp [Bind.bind, Except.bind] at h
  | ok a =>
    cases ez with
    | error e => simp [Bind.bind, Except.bind] at h
    | ok z =>
      cases s with
      | mk sa sz =>
        simp only [Bind.bind, Except.bind, Except.ok.injEq, AppSettings.mk.injEq] at h
        exact ⟨by rw [h.1], by rw [h.2]⟩

/-- Applying two single-field patches with at most one of them binding the
field key yields the same field value in either order. -/
theorem fieldPatch_comm {α : Type} (f : PyVal → Except String α) (g : α → PyVal)
    (k : String) (pa pb : PyObj) (c ca cb cab cba : α)
    (hdk : lookupD pa k = none ∨ lookupD pb k = none)
    (ha : fieldPatch f g c pa k = .ok ca)
    (hb : fieldPatch f g c pb k = .ok cb)
    (hab : fieldPatch f g ca pb k = .ok cab)
    (hba : fieldPatch f g cb pa k = .ok cba) :
    cab = cba := by
  cases hpa : lookupD pa k with
  | none =>
    simp only [fieldPatch, hpa, Except.ok.injEq] at ha hba
    cases hpb : lookupD pb k with
    | none =>
      simp only [fieldPatch, hpb, Except.ok.injEq] at hb hab
      rw [← hab, ← ha, hb, hba]
    | some vb =>
      simp only [fieldPatch, hpb] at hb hab
      rw [← ha] at hab
      rw [hb] at hab
      simp only [Except.ok.injEq] at hab
      rw [← hab, ← hba]
  | some va =>
    have hpb : lookupD pb k = none := by
      rcases hdk with h1 | h1
      · rw [hpa] at h1; cases h1
      · exact h1
    simp only [fieldPatch, hpa] at ha hba
    simp only [fieldPatch, hpb, Except.ok.injEq] at hb hab
    rw [← hb] at hba
    rw [ha] at hba
    simp only [Except.ok.injEq] at hba
    rw [← hab, hba]

/- ----------------------------------------------------------------------
Claim C9: concurrency of `update()` calls.  Under asyncio's cooperative
scheduling an `update` call is two atomic phases: the merge + re-validate
+ assign block (app_settings.py:104-119, which contains no `await`, so no
other task can interleave inside it — but it runs WITHOUT holding any
lock), and the body of `save` (app_settings.py:92-98), which runs holding
`self._save_lock`; the lock makes the read-current-settings/write-file
pair mutually exclusive with other saves, so it is modelled as one atomic
step that dumps the settings as they are at save time.
---------------------------------------------------------------------- -/

/-- Whether each successive atomic phase of one `update()` call holds
`self._save_lock`: the merge/validate/assign phase does not (no lock is
taken in `update` itself, app_settings.py:102-119); only the `save` phase
does (`async with self._save_lock`, app_settings.py:92). -/
def updateStepLocked : List Bool := [false, true]

/-- The shared state seen by concurrently running `update` calls. -/
structure MemDisk where
  mem : AppSettings
  disk : Option PyObj
deriving DecidableEq

/-- An in-flight `update(patch)` call: program counter 0 = about to run
the merge/validate/assign phase, 1 = about to run the `save` phase, 2 =
finished; `failed` records a propagated validation error. -/
structure UpdTask where
  patch : PyObj
  pc : Nat
  failed : Bool
deriving DecidableEq

/-- One atomic phase of an in-flight `update` call (see section comment). -/
def stepUpd (w : MemDisk) (t : UpdTask) : MemDisk × UpdTask :=
  if t.pc = 0 then
    match validateAppSettings (.dict (merge w.mem.dumpObj t.patch)) with
    | .ok s' => ({ w with mem := s' }, { t with pc := 1 })
    | .error _ => (w, { t with pc := 2, failed := true })
  else if t.pc = 1 then
    ({ w with disk := some w.mem.dumpObj }, { t with pc := 2 })
  else (w, t)

/-- Run two concurrent `update` calls under a schedule: `false` = task A
takes its next atomic phase, `true` = task B does. -/
def runSched : MemDisk → UpdTask → UpdTask → List Bool → MemDisk × UpdTask × UpdTask
  | w, ta, tb, [] => (w, ta, tb)
  | w, ta, tb, false :: rest =>
    runSched (stepUpd w ta).1 (stepUpd w ta).2 tb rest
  | w, ta, tb, true :: rest =>
    runSched (stepUpd w tb).1 ta (stepUpd w tb).2 rest

/-- All interleavings of the two two-phase `update` calls that respect
each call's program order. -/
def schedules : List (List Bool) :=
  [[false, false, true, true], [false, true, false, true],
   [false, true, true, false], [true, false, false, true],
   [true, false, true, false], [true, true, false, false]]

/-- C9 counterexample: `update()` calls do not serialize behind the single
write lock — the lock is only acquired inside `save`, so the first
(merge/validate/assign) phase of `update` runs without it; an `update`
call is therefore not one lock-protected critical section as the claim
states. -/
theorem update_not_entirely_under_lock :
    updateStepLocked.all (fun b => b) = false := rfl

/-- C9 (amended): only the `save` phase of `update()` holds the write
lock; the merge/validate/assign phase runs outside it but is atomic under
cooperative scheduling.  Still, for every pair of `update` calls with
disjoint top-level patches whose merged trees validate (in every
serialization order), and for every interleaving of the two calls, both
succeed, the two serialization orders agree, and the final in-memory
settings and on-disk document reflect both merges. -/
theorem update_interleavings_reflect_both_merges
    (S Sa Sb Sab Sba : AppSettings) (pa pb : PyObj) (d0 : Option PyObj)
    (hA : validateAppSettings (.dict (merge S.dumpObj pa)) = .ok Sa)
    (hB : validateAppSettings (.dict (merge S.dumpObj pb)) = .ok Sb)
    (hAB : validateAppSettings (.dict (merge Sa.dumpObj pb)) = .ok Sab)
    (hBA : validateAppSettings (.dict (merge Sb.dumpObj pa)) = .ok Sba)
    (hna : (keysD pa).Nodup) (hnb : (keysD pb).Nodup)
    (hdisj : ∀ k ∈ keysD pa, k ∉ keysD pb) :
    Sab = Sba ∧
    ∀ sched ∈ schedules,
      (runSched ⟨S, d0⟩ ⟨pa, 0, false⟩ ⟨pb, 0, false⟩ sched).2.1.failed = false ∧
      (runSched ⟨S, d0⟩ ⟨pa, 0, false⟩ ⟨pb, 0, false⟩ sched).2.2.failed = false ∧
      (runSched ⟨S, d0⟩ ⟨pa, 0, false⟩ ⟨pb, 0, false⟩ sched).1.mem = Sab ∧
      (runSched ⟨S, d0⟩ ⟨pa, 0, false⟩ ⟨pb, 0, false⟩ sched).1.disk
        = some Sab.dumpObj := by
  have hA2 := hA
  have hB2 := hB
  have hAB2 := hAB
  have hBA2 := hBA
  rw [validateAppSettings_merge_split S pa hna] at hA2
  rw [validateAppSettings_merge_split S pb hnb] at hB2
  rw [validateAppSettings_merge_split Sa pb hnb] at hAB2
  rw [validateAppSettings_merge_split Sb pa hna] at hBA2
  obtain ⟨haA, haZ⟩ := settingsPair_ok _ _ _ hA2
  obtain ⟨hbA, hbZ⟩ := settingsPair_ok _ _ _ hB2
  obtain ⟨habA, habZ⟩ := settingsPair_ok _ _ _ hAB2
  obtain ⟨hbaA, hbaZ⟩ := settingsPair_ok _ _ _ hBA2
  have hdk : ∀ k : String, lookupD pa k = none ∨ lookupD pb k = none := by
    intro k
    cases hpk : lookupD pa k with
    | none => exact Or.inl rfl
    | some v =>
      exact Or.inr
        (lookupD_eq_none_of_not_mem pb k (hdisj k (mem_of_lookupD_some pa k v hpk)))
  have heqA : Sab.agent_config = Sba.agent_config :=
    fieldPatch_comm validateAgentConfig AgentConfig.dump "agent_config" pa pb
      S.agent_config Sa.agent_config Sb.agent_config Sab.agent_config
      Sba.agent_config (hdk "agent_config") haA hbA habA hbaA
  have heqZ : Sab.zalo_config = Sba.zalo_config :=
    fieldPatch_comm validateZaloConfig ZaloConfig.dump "zalo_config" pa pb
      S.zalo_config Sa.zalo_config Sb.zalo_config Sab.zalo_config
      Sba.zalo_config (hdk "zalo_config") haZ hbZ habZ hbaZ
  have heq : Sab = Sba := by
    cases Sab with
    | mk a1 z1 =>
      cases Sba with
      | mk a2 z2 =>
        simp only [] at heqA heqZ
        rw [heqA, heqZ]
  refine ⟨heq, ?_⟩
  intro sched hs
  simp only [schedules, List.mem_cons, List.not_mem_nil, or_false] at hs
  rcases hs with rfl | rfl | rfl | rfl | rfl | rfl <;>
    simp [runSched, stepUpd, hA, hB, hAB, hBA, heq]

/-- A tool descriptor document giving only the five required fields; the
defaulted and optional fields (`enabled`, `curl`, `header`, ...) are
filled in by validation, so the validated settings do not dump back to the
merged tree — the patch is valid but not in canonical (dump) form. -/
def minimalToolDoc : PyVal :=
  .dict (PyObj.ofList
    [("name", .str "t1"), ("type", .str "api"), ("description", .str "d"),
     ("input", .dict .nil), ("output", .dict .nil)])

def settingsOaOff : AppSettings :=
  { AppSettings.defaults with
    zalo_config := { ZaloConfig.defaults with
      oa := { ZaloOAConfig.defaults with enabled := false } } }

/-- The `ToolConfig` that validating `minimalToolDoc` produces. -/
def minimalTool : ToolConfig :=
  { name := "t1", type := "api", enabled := true, description := "d", curl := none,
    input := .nil, header := none, output := .nil, dependencies := none,
    category := none, max_concurrent := none, headers := none }

/-- A patch replacing `agent_config.tools` with `[minimalToolDoc]`. -/
def patchToolsMin : PyObj :=
  .cons "agent_config"
    (.dict (.cons "tools" (.list (.cons minimalToolDoc .nil)) .nil)) .nil

def settingsToolsMin : AppSettings :=
  { AppSettings.defaults with
    agent_config := { AgentConfig.defaults with tools := [minimalTool] } }

def settingsToolsMinOaOff : AppSettings :=
  { settingsToolsMin with zalo_config := settingsOaOff.zalo_config }

theorem update_interleavings_reflect_both_merges_witness :
    (validateAppSettings (.dict (merge AppSettings.defaults.dumpObj patchToolsMin))
        = .ok settingsToolsMin ∧
     validateAppSettings (.dict (merge AppSettings.defaults.dumpObj oaPatch))
        = .ok settingsOaOff ∧
     validateAppSettings (.dict (merge settingsToolsMin.dumpObj oaPatch))
        = .ok settingsToolsMinOaOff ∧
     validateAppSettings (.dict (merge settingsOaOff.dumpObj patchToolsMin))
        = .ok settingsToolsMinOaOff ∧
     (keysD patchToolsMin).Nodup ∧ (keysD oaPatch).Nodup ∧
     (∀ k ∈ keysD patchToolsMin, k ∉ keysD oaPatch)) ∧
    (settingsToolsMinOaOff = settingsToolsMinOaOff ∧
     ∀ sched ∈ schedules,
       (runSched ⟨AppSettings.defaults, none⟩ ⟨patchToolsMin, 0, false⟩
         ⟨oaPatch, 0, false⟩ sched).2.1.failed = false ∧
       (runSched ⟨AppSettings.defaults, none⟩ ⟨patchToolsMin, 0, false⟩
         ⟨oaPatch, 0, false⟩ sched).2.2.failed = false ∧
       (runSched ⟨AppSettings.defaults, none⟩ ⟨patchToolsMin, 0, false⟩
         ⟨oaPatch, 0, false⟩ sched).1.mem = settingsToolsMinOaOff ∧
       (runSched ⟨AppSettings.defaults, none⟩ ⟨patchToolsMin, 0, false⟩
         ⟨oaPatch, 0, false⟩ sched).1.disk = some settingsToolsMinOaOff.dumpObj) :=
  ⟨⟨rfl, rfl, rfl, rfl, by decide, by decide, by decide⟩,
   update_interleavings_reflect_both_merges AppSettings.defaults settingsToolsMin
     settingsOaOff settingsToolsMinOaOff settingsToolsMinOaOff patchToolsMin oaPatch
     none rfl rfl rfl rfl (by decide) (by decide) (by decide)⟩
